import Mathlib

/-!
# Shallow embedding of `src/renderer.ts` (battlecode-client-17)

The renderer draws one frame of a game-world snapshot onto a 2D canvas.
We embed it as a pure function from the renderer's configuration and the
snapshot data to the *trace* of canvas operations it issues, in source
order.  Numeric values (JS `number`) are modelled as rationals `ℚ`;
structure-of-arrays collections are modelled as a length together with
total index functions (the code only ever reads indices `< length`).
-/

/-- JS `number` is modelled as `ℚ`. -/
abbrev JSNum := ℚ

/-- A sprite handle, one constructor per slot of the `AllImages` bundle
that `renderer.ts` reads (`imgs.tree.fullHealth`, `imgs.robot.archon[team]`,
…, `imgs.unknown`, `imgs.bullet.fast/medium/slow`).  Team-indexed slots
carry the team index. -/
inductive Img
  | treeFullHealth
  | bulletTree (team : Nat)
  | archon (team : Nat)
  | gardener (team : Nat)
  | lumberjack (team : Nat)
  | recruit (team : Nat)
  | soldier (team : Nat)
  | tank (team : Nat)
  | scout (team : Nat)
  | unknown
  | bulletFast
  | bulletMedium
  | bulletSlow
  deriving DecidableEq, Repr

/-- A value assigned to `ctx.fillStyle` / `ctx.strokeStyle`: either a CSS
color string or the cached background `CanvasPattern`. -/
inductive Style
  | colorStr (s : String)
  | bgPattern
  deriving DecidableEq, Repr

/-- One canvas-context operation, as issued by the renderer.  `arc`'s two
angle arguments are stored in units of π (the source's only call is
`arc(x, y, r, 0, 2*Math.PI, false)`, stored as angles `0` and `2`).
`fill` and `stroke` are included because the canvas API offers them; the
renderer source never issues them. -/
inductive CtxOp
  | save
  | restore
  | scaleOp (sx sy : JSNum)
  | translate (tx ty : JSNum)
  | setFillStyle (s : Style)
  | setStrokeStyle (s : Style)
  | setLineWidth (w : JSNum)
  | fillRect (x y w h : JSNum)
  | strokeRect (x y w h : JSNum)
  | drawImage (img : Img) (x y w h : JSNum)
  | beginPath
  | arc (x y r aStartPi aEndPi : JSNum) (ccw : Bool)
  | moveTo (x y : JSNum)
  | lineTo (x y : JSNum)
  | fill
  | stroke
  deriving DecidableEq, Repr

/-- The per-attribute parallel arrays of `world.bodies.arrays`. -/
structure BodiesArrays where
  type : Nat → Nat
  team : Nat → Nat
  x : Nat → JSNum
  y : Nat → JSNum
  health : Nat → JSNum
  radius : Nat → JSNum

/-- Collection `world.bodies`: a structure-of-arrays collection with authoritative
`length`. -/
structure Bodies where
  length : Nat
  arrays : BodiesArrays

/-- The per-attribute parallel arrays of `world.bullets.arrays`. -/
structure BulletsArrays where
  x : Nat → JSNum
  y : Nat → JSNum
  velX : Nat → JSNum
  velY : Nat → JSNum
  spawnedTime : Nat → JSNum

/-- Collection `world.bullets`: a structure-of-arrays collection with authoritative
`length`. -/
structure Bullets where
  length : Nat
  arrays : BulletsArrays

/-- A 2D point (the `Victor` vectors used for world corners and the view
origin). -/
structure Victor where
  x : JSNum
  y : JSNum

/-- Snapshot `GameWorld`: the fields of the snapshot that `renderer.ts` reads. -/
structure GameWorld where
  bodies : Bodies
  bullets : Bullets
  minCorner : Victor
  maxCorner : Victor
  turn : JSNum

/-- Modelled from the spec: `NextStep` (module `./nextstep`, not in the
sources given) is the peeked next snapshot; the renderer reads only
`nextStep.bodies.arrays.x` and `.y`, so we model it as carrying a bodies
collection like the world's. -/
structure NextStep where
  bodies : Bodies

/-- One entry of `metadata.types`: the renderer reads only `maxHealth`. -/
structure BodyTypeMeta where
  maxHealth : JSNum

/-- The renderer state that the drawing functions read: the canvas pixel
width (used for the view scale), the body-type metadata table
(`metadata.types`, `none` = no entry for that type code), and the
`healthBars` display flag. -/
structure Renderer where
  canvasWidth : JSNum
  metadata : Nat → Option BodyTypeMeta
  healthBars : Bool

-- Constants from the bottom of renderer.ts.

/-- Constant `BULLET_SIZE = .25`. -/
def BULLET_SIZE : JSNum := 25/100
/-- Constant `BULLET_SIZE_HALF = BULLET_SIZE / 2`. -/
def BULLET_SIZE_HALF : JSNum := BULLET_SIZE / 2
/-- Constant `INDICATOR_DOT_SIZE = .25`. -/
def INDICATOR_DOT_SIZE : JSNum := 25/100
/-- Constant `INDICATOR_LINE_WIDTH = .1`. -/
def INDICATOR_LINE_WIDTH : JSNum := 1/10
/-- Constant `HEALTH_BAR_HEIGHT = .3`. -/
def HEALTH_BAR_HEIGHT : JSNum := 3/10
/-- Constant `HEALTH_BAR_WIDTH = 2`. -/
def HEALTH_BAR_WIDTH : JSNum := 2
/-- Constant `HEALTH_BAR_WIDTH_HALF = HEALTH_BAR_WIDTH / 2`. -/
def HEALTH_BAR_WIDTH_HALF : JSNum := HEALTH_BAR_WIDTH / 2
/-- Constant `HIGH_SPEED_THRESH = (2*2) - .00001`. -/
def HIGH_SPEED_THRESH : JSNum := (2*2) - 1/100000
/-- Constant `MED_SPEED_THRESH = (1.5*1.5) - .00001`. -/
def MED_SPEED_THRESH : JSNum := ((3/2)*(3/2)) - 1/100000

/-- Modelled from the spec: the numeric body-type codes come from the
external `battlecode-playback` schema (`schema.BodyType.*`), not from the
given sources; the spec only requires a closed enumeration of distinct
codes (seven robot kinds plus two tree kinds).  We use the schema's
declaration order starting at 0. -/
def ARCHON : Nat := 0
/-- Modelled from the spec: see `ARCHON`. -/
def GARDENER : Nat := 1
/-- Modelled from the spec: see `ARCHON`. -/
def LUMBERJACK : Nat := 2
/-- Modelled from the spec: see `ARCHON`. -/
def RECRUIT : Nat := 3
/-- Modelled from the spec: see `ARCHON`. -/
def SOLDIER : Nat := 4
/-- Modelled from the spec: see `ARCHON`. -/
def TANK : Nat := 5
/-- Modelled from the spec: see `ARCHON`. -/
def SCOUT : Nat := 6
/-- Modelled from the spec: see `ARCHON`. -/
def TREE_BULLET : Nat := 7
/-- Modelled from the spec: see `ARCHON`. -/
def TREE_NEUTRAL : Nat := 8

/-- The ops emitted by a `for (let i = 0; i < n; i++)` loop whose body
emits `f i`, concatenated in loop order. -/
def rangeOps (f : Nat → List CtxOp) : Nat → List CtxOp
  | 0 => []
  | n + 1 => rangeOps f n ++ f n

/-- The `switch (types[i])` of `renderBodies` / `renderBodiesInterpolated`:
sprite selection by body-type code and team, defaulting to the unknown
placeholder. -/
def bodyImage (type team : Nat) : Img :=
  if type = TREE_NEUTRAL then Img.treeFullHealth
  else if type = TREE_BULLET then Img.bulletTree team
  else if type = ARCHON then Img.archon team
  else if type = GARDENER then Img.gardener team
  else if type = LUMBERJACK then Img.lumberjack team
  else if type = RECRUIT then Img.recruit team
  else if type = SOLDIER then Img.soldier team
  else if type = TANK then Img.tank team
  else if type = SCOUT then Img.scout team
  else Img.unknown

/-- Function `drawHealthBar(x, y, health, type)`: returns with no ops when the
`healthBars` option is off or when `metadata.types[type]` has no entry;
otherwise fills the green health rectangle and strokes the black outline. -/
def drawHealthBar (r : Renderer) (x y health : JSNum) (type : Nat) : List CtxOp :=
  if r.healthBars = false then []
  else
    match r.metadata type with
    | none => []
    | some bodyType =>
      [CtxOp.setFillStyle (Style.colorStr "green"),
       CtxOp.fillRect x y (HEALTH_BAR_WIDTH * health / bodyType.maxHealth) HEALTH_BAR_HEIGHT,
       CtxOp.setStrokeStyle (Style.colorStr "black"),
       CtxOp.setLineWidth (1/10),
       CtxOp.strokeRect x y HEALTH_BAR_WIDTH HEALTH_BAR_HEIGHT]

/-- Loop body of `renderBodies` at index `i`: draw the sprite centered on
the raw position, then the health bar anchored below-left of center. -/
def bodyOps (r : Renderer) (w : GameWorld) (i : Nat) : List CtxOp :=
  let x := w.bodies.arrays.x i
  let y := w.bodies.arrays.y i
  let radius := w.bodies.arrays.radius i
  let team := w.bodies.arrays.team i
  let img := bodyImage (w.bodies.arrays.type i) team
  CtxOp.drawImage img (x - radius) (y - radius) (radius*2) (radius*2) ::
    drawHealthBar r (x - HEALTH_BAR_WIDTH_HALF) (y + radius)
      (w.bodies.arrays.health i) (w.bodies.arrays.type i)

/-- Function `renderBodies(world)`. -/
def renderBodies (r : Renderer) (w : GameWorld) : List CtxOp :=
  rangeOps (bodyOps r w) w.bodies.length

/-- Loop body of `renderBodiesInterpolated` at index `i`: positions are
`realX = x + (nextX - x) * lerpAmount` (and likewise for y). -/
def interpBodyOps (r : Renderer) (w : GameWorld) (n : NextStep) (lerpAmount : JSNum)
    (i : Nat) : List CtxOp :=
  let x := w.bodies.arrays.x i
  let y := w.bodies.arrays.y i
  let nextX := n.bodies.arrays.x i
  let nextY := n.bodies.arrays.y i
  let realX := x + (nextX - x) * lerpAmount
  let realY := y + (nextY - y) * lerpAmount
  let radius := w.bodies.arrays.radius i
  let team := w.bodies.arrays.team i
  let img := bodyImage (w.bodies.arrays.type i) team
  CtxOp.drawImage img (realX - radius) (realY - radius) (radius*2) (radius*2) ::
    drawHealthBar r (realX - HEALTH_BAR_WIDTH_HALF) (realY + radius)
      (w.bodies.arrays.health i) (w.bodies.arrays.type i)

/-- Function `renderBodiesInterpolated(world, nextStep, lerpAmount)`. -/
def renderBodiesInterpolated (r : Renderer) (w : GameWorld) (n : NextStep)
    (lerpAmount : JSNum) : List CtxOp :=
  rangeOps (interpBodyOps r w n lerpAmount) w.bodies.length

/-- The `if (speedsq >= …)` tiering of `renderBullets`: sprite selection by
squared speed. -/
def bulletImage (velX velY : JSNum) : Img :=
  if velX*velX + velY*velY ≥ HIGH_SPEED_THRESH then Img.bulletFast
  else if velX*velX + velY*velY ≥ MED_SPEED_THRESH then Img.bulletMedium
  else Img.bulletSlow

/-- Loop body of `renderBullets` at index `i`: extrapolate the position
from spawn time and constant velocity, with
`dt = (world.turn + lerpAmount) - spawnedTime[i]`. -/
def bulletOps (w : GameWorld) (lerpAmount : JSNum) (i : Nat) : List CtxOp :=
  let velX := w.bullets.arrays.velX i
  let velY := w.bullets.arrays.velY i
  let dt := (w.turn + lerpAmount) - w.bullets.arrays.spawnedTime i
  let x := w.bullets.arrays.x i + velX*dt
  let y := w.bullets.arrays.y i + velY*dt
  [CtxOp.drawImage (bulletImage velX velY)
    (x - BULLET_SIZE_HALF) (y - BULLET_SIZE_HALF) BULLET_SIZE BULLET_SIZE]

/-- Function `renderBullets(world, lerpAmount)`. -/
def renderBullets (w : GameWorld) (lerpAmount : JSNum) : List CtxOp :=
  rangeOps (bulletOps w lerpAmount) w.bullets.length

/-- Function `renderBackground(world)`: scoped (save/restore) pattern fill of the
world's bounding rectangle in a 1/20-scaled coordinate space. -/
def renderBackground (w : GameWorld) : List CtxOp :=
  let minX := w.minCorner.x
  let minY := w.minCorner.y
  let width := w.maxCorner.x - w.minCorner.x
  let height := w.maxCorner.y - w.minCorner.y
  let bgScale : JSNum := 20
  [CtxOp.save,
   CtxOp.setFillStyle Style.bgPattern,
   CtxOp.scaleOp (1/bgScale) (1/bgScale),
   CtxOp.fillRect (minX*bgScale) (minY*bgScale) (width*bgScale) (height*bgScale),
   CtxOp.restore]

/-- A dots collection as built inside `renderIndicatorStrings`: parallel
arrays `x, y, red, green, blue` with authoritative `length`. -/
structure IndicatorDots where
  length : Nat
  x : Nat → JSNum
  y : Nat → JSNum
  red : Nat → Nat
  green : Nat → Nat
  blue : Nat → Nat

/-- A lines collection as built inside `renderIndicatorStrings`: parallel
arrays `startX, startY, endX, endY, red, green, blue` with authoritative
`length`. -/
structure IndicatorLines where
  length : Nat
  startX : Nat → JSNum
  startY : Nat → JSNum
  endX : Nat → JSNum
  endY : Nat → JSNum
  red : Nat → Nat
  green : Nat → Nat
  blue : Nat → Nat

/-- The string the source assigns to `fillStyle` in both overlay loops.
It is written with single quotes in the source — a plain string literal,
not a template literal — so the `$\x7b…\x7d` placeholders are NOT
substituted and the assigned value is this fixed text. -/
def rgbLiteral : String := "rgb($\x7bred\x7d, $\x7bgreen\x7d, $\x7bblue\x7d)"

/-- The body of `renderIndicatorStrings`, generalized over the dots and
lines collections (the source builds both collections inline; see
`emptyDots`/`emptyLines`).  Per dot: `beginPath`, `arc` (full circle),
then assign `fillStyle`; no `fill` call follows.  Then
`ctx.lineWidth = INDICATOR_LINE_WIDTH`.  Per line: `beginPath`, `moveTo`,
`lineTo`, then assign `fillStyle`; no `stroke` call follows. -/
def renderIndicatorStringsWith (dots : IndicatorDots) (lines : IndicatorLines) :
    List CtxOp :=
  rangeOps (fun i =>
      [CtxOp.beginPath,
       CtxOp.arc (dots.x i) (dots.y i) INDICATOR_DOT_SIZE 0 2 false,
       CtxOp.setFillStyle (Style.colorStr rgbLiteral)]) dots.length
    ++ [CtxOp.setLineWidth INDICATOR_LINE_WIDTH]
    ++ rangeOps (fun i =>
      [CtxOp.beginPath,
       CtxOp.moveTo (lines.startX i) (lines.startY i),
       CtxOp.lineTo (lines.endX i) (lines.endY i),
       CtxOp.setFillStyle (Style.colorStr rgbLiteral)]) lines.length

/-- The hardcoded dots collection of `renderIndicatorStrings`: length 0
with empty arrays (an out-of-range read of an empty JS array never occurs
because the loop bound is 0; we model the arrays as constant 0). -/
def emptyDots : IndicatorDots :=
  { length := 0, x := fun _ => 0, y := fun _ => 0,
    red := fun _ => 0, green := fun _ => 0, blue := fun _ => 0 }

/-- The hardcoded lines collection of `renderIndicatorStrings`: length 0
with empty arrays. -/
def emptyLines : IndicatorLines :=
  { length := 0, startX := fun _ => 0, startY := fun _ => 0,
    endX := fun _ => 0, endY := fun _ => 0,
    red := fun _ => 0, green := fun _ => 0, blue := fun _ => 0 }

/-- Function `renderIndicatorStrings(world)`: the source ignores the world's
overlay data and feeds the loops the hardcoded empty collections. -/
def renderIndicatorStrings (_w : GameWorld) : List CtxOp :=
  renderIndicatorStringsWith emptyDots emptyLines

/-- The rendering pass an op belongs to, in back-to-front issue order
(frame setup, background, projectiles, bodies, annotation overlays, frame
teardown). -/
inductive Pass
  | frameSetup
  | background
  | bullets
  | bodiesPass
  | overlay
  | frameTeardown
  deriving DecidableEq, Repr

/-- Numeric position of a pass in the issue order. -/
def passIdx : Pass → Nat
  | Pass.frameSetup => 0
  | Pass.background => 1
  | Pass.bullets => 2
  | Pass.bodiesPass => 3
  | Pass.overlay => 4
  | Pass.frameTeardown => 5

/-- Tag every op of a pass's op list with that pass. -/
def tagPass (p : Pass) (ops : List CtxOp) : List (Pass × CtxOp) :=
  ops.map (fun op => (p, op))

/-- Function `render(world, viewMin, viewWidth, nextStep?, lerpAmount?)`:
the per-frame entry point, as the pass-tagged trace of canvas ops.
Save, set the view transform (scale by `canvas.width / viewWidth`, then
translate by `-viewMin`), draw background, then — interpolated when both
optional arguments are present (`lerpAmount != null && nextStep != null`),
raw otherwise — bullets and bodies, then the indicator overlays, then
restore. -/
def render (r : Renderer) (w : GameWorld) (viewMin : Victor) (viewWidth : JSNum)
    (nextStep : Option NextStep) (lerpAmount : Option JSNum) :
    List (Pass × CtxOp) :=
  let viewScale := r.canvasWidth / viewWidth
  tagPass Pass.frameSetup
      [CtxOp.save, CtxOp.scaleOp viewScale viewScale,
       CtxOp.translate (-viewMin.x) (-viewMin.y)]
    ++ tagPass Pass.background (renderBackground w)
    ++ (match lerpAmount, nextStep with
        | some la, some ns =>
          tagPass Pass.bullets (renderBullets w la)
            ++ tagPass Pass.bodiesPass (renderBodiesInterpolated r w ns la)
        | _, _ =>
          tagPass Pass.bullets (renderBullets w 0)
            ++ tagPass Pass.bodiesPass (renderBodies r w))
    ++ tagPass Pass.overlay (renderIndicatorStrings w)
    ++ tagPass Pass.frameTeardown [CtxOp.restore]

/-- The untagged op trace of one `render` call. -/
def renderOps (r : Renderer) (w : GameWorld) (viewMin : Victor) (viewWidth : JSNum)
    (nextStep : Option NextStep) (lerpAmount : Option JSNum) : List CtxOp :=
  (render r w viewMin viewWidth nextStep lerpAmount).map Prod.snd

/-- An affine canvas transform `[[a, c, e], [b, d, f]]` (the 2D context's
current transformation matrix). -/
structure Affine where
  a : JSNum
  b : JSNum
  c : JSNum
  d : JSNum
  e : JSNum
  f : JSNum
  deriving DecidableEq, Repr

/-- The identity transform. -/
def Affine.idT : Affine := ⟨1, 0, 0, 1, 0, 0⟩

/-- Transform composition `m ∘ n` (apply `n` first, then `m`), as canvas
`transform`-style post-multiplication. -/
def Affine.comp (m n : Affine) : Affine :=
  ⟨m.a*n.a + m.c*n.b, m.b*n.a + m.d*n.b,
   m.a*n.c + m.c*n.d, m.b*n.c + m.d*n.d,
   m.a*n.e + m.c*n.f + m.e, m.b*n.e + m.d*n.f + m.f⟩

/-- The matrix of `ctx.scale(sx, sy)`. -/
def Affine.scaleM (sx sy : JSNum) : Affine := ⟨sx, 0, 0, sy, 0, 0⟩

/-- The matrix of `ctx.translate(tx, ty)`. -/
def Affine.translateM (tx ty : JSNum) : Affine := ⟨1, 0, 0, 1, tx, ty⟩

/-- The drawing state a canvas context saves and restores: the current
transform plus the style attributes the renderer touches. -/
structure Frame where
  transform : Affine
  fillStyle : Style
  strokeStyle : Style
  lineWidth : JSNum
  deriving DecidableEq, Repr

/-- The mutable context state: the save stack plus the current frame. -/
structure CtxState where
  stack : List Frame
  cur : Frame
  deriving DecidableEq, Repr

/-- The effect of one op on the context state.  `save` pushes the current
frame; `restore` pops (and is a no-op on an empty stack, as in the canvas
API); `scale`/`translate` post-multiply the current transform; the style
setters update the current frame; path and drawing ops leave the state
unchanged. -/
def applyOp (s : CtxState) : CtxOp → CtxState
  | CtxOp.save => { s with stack := s.cur :: s.stack }
  | CtxOp.restore =>
    match s.stack with
    | [] => s
    | f :: rest => { stack := rest, cur := f }
  | CtxOp.scaleOp sx sy =>
    { s with cur := { s.cur with transform := s.cur.transform.comp (Affine.scaleM sx sy) } }
  | CtxOp.translate tx ty =>
    { s with cur := { s.cur with transform := s.cur.transform.comp (Affine.translateM tx ty) } }
  | CtxOp.setFillStyle st => { s with cur := { s.cur with fillStyle := st } }
  | CtxOp.setStrokeStyle st => { s with cur := { s.cur with strokeStyle := st } }
  | CtxOp.setLineWidth w => { s with cur := { s.cur with lineWidth := w } }
  | _ => s

/-- Run a list of ops on a context state, left to right. -/
def applyOps (s : CtxState) (ops : List CtxOp) : CtxState :=
  ops.foldl applyOp s

/-- Whether an op manipulates the save stack. -/
def isStackOp : CtxOp → Bool
  | CtxOp.save => true
  | CtxOp.restore => true
  | _ => false

/-! ## Helper lemmas -/

/-- Loop bodies that agree below the bound give the same loop trace. -/
theorem rangeOps_congr {f g : Nat → List CtxOp} {n : Nat}
    (h : ∀ i, i < n → f i = g i) : rangeOps f n = rangeOps g n := by
  induction n with
  | zero => rfl
  | succ n ih =>
    simp only [rangeOps]
    rw [ih (fun i hi => h i (Nat.lt_succ_of_lt hi)), h n (Nat.lt_succ_self n)]

/-- Membership in a loop trace is membership in some iteration's block. -/
theorem mem_rangeOps {op : CtxOp} {f : Nat → List CtxOp} {n : Nat} :
    op ∈ rangeOps f n ↔ ∃ i, i < n ∧ op ∈ f i := by
  induction n with
  | zero => simp [rangeOps]
  | succ n ih =>
    simp only [rangeOps, List.mem_append, ih]
    constructor
    · rintro (⟨i, hi, hop⟩ | hop)
      · exact ⟨i, Nat.lt_succ_of_lt hi, hop⟩
      · exact ⟨n, Nat.lt_succ_self n, hop⟩
    · rintro ⟨i, hi, hop⟩
      rcases Nat.lt_succ_iff_lt_or_eq.mp hi with hi' | rfl
      · exact Or.inl ⟨i, hi', hop⟩
      · exact Or.inr hop

/-- Running a concatenation of op lists runs them in sequence. -/
theorem applyOps_append (s : CtxState) (l₁ l₂ : List CtxOp) :
    applyOps s (l₁ ++ l₂) = applyOps (applyOps s l₁) l₂ :=
  List.foldl_append applyOp s l₁ l₂

/-- Ops that do not manipulate the save stack leave the stack untouched. -/
theorem applyOp_stack (s : CtxState) {op : CtxOp} (h : isStackOp op = false) :
    (applyOp s op).stack = s.stack := by
  cases op <;> simp_all [applyOp, isStackOp]

/-- A run of stack-free ops preserves the save stack. -/
theorem applyOps_stack (s : CtxState) {ops : List CtxOp}
    (h : ∀ op ∈ ops, isStackOp op = false) :
    (applyOps s ops).stack = s.stack := by
  induction ops generalizing s with
  | nil => rfl
  | cons op rest ih =>
    have hstep : applyOps s (op :: rest) = applyOps (applyOp s op) rest := rfl
    rw [hstep, ih (applyOp s op) (fun o ho => h o (List.mem_cons_of_mem op ho))]
    exact applyOp_stack s (h op (List.mem_cons_self op rest))

/-- The health-bar helper emits no save/restore. -/
theorem drawHealthBar_no_stackOp (r : Renderer) (x y health : JSNum) (type : Nat) :
    ∀ op ∈ drawHealthBar r x y health type, isStackOp op = false := by
  intro op hop
  unfold drawHealthBar at hop
  rcases hb : r.healthBars with _ | _ <;> simp [hb] at hop
  rcases hm : r.metadata type with _ | bt <;> simp [hm] at hop
  rcases hop with h | h | h | h | h <;> subst h <;> rfl

/-- The body pass (raw path) emits no save/restore. -/
theorem renderBodies_no_stackOp (r : Renderer) (w : GameWorld) :
    ∀ op ∈ renderBodies r w, isStackOp op = false := by
  intro op hop
  rcases mem_rangeOps.mp hop with ⟨i, _, hm⟩
  simp only [bodyOps, List.mem_cons] at hm
  rcases hm with h | h
  · subst h; rfl
  · exact drawHealthBar_no_stackOp r _ _ _ _ op h

/-- The body pass (interpolated path) emits no save/restore. -/
theorem renderBodiesInterpolated_no_stackOp (r : Renderer) (w : GameWorld)
    (n : NextStep) (la : JSNum) :
    ∀ op ∈ renderBodiesInterpolated r w n la, isStackOp op = false := by
  intro op hop
  rcases mem_rangeOps.mp hop with ⟨i, _, hm⟩
  simp only [interpBodyOps, List.mem_cons] at hm
  rcases hm with h | h
  · subst h; rfl
  · exact drawHealthBar_no_stackOp r _ _ _ _ op h

/-- The projectile pass emits no save/restore. -/
theorem renderBullets_no_stackOp (w : GameWorld) (la : JSNum) :
    ∀ op ∈ renderBullets w la, isStackOp op = false := by
  intro op hop
  rcases mem_rangeOps.mp hop with ⟨i, _, hm⟩
  simp only [bulletOps, List.mem_singleton] at hm
  subst hm; rfl

/-- The overlay pass emits no save/restore. -/
theorem renderIndicatorStrings_no_stackOp (w : GameWorld) :
    ∀ op ∈ renderIndicatorStrings w, isStackOp op = false := by
  intro op hop
  simp only [renderIndicatorStrings, renderIndicatorStringsWith, emptyDots,
    emptyLines, rangeOps, List.nil_append, List.append_nil,
    List.mem_singleton] at hop
  subst hop; rfl

/-- The background pass is perfectly scoped: it restores every piece of
context state it changes. -/
theorem applyOps_renderBackground (s : CtxState) (w : GameWorld) :
    applyOps s (renderBackground w) = s := by
  simp [renderBackground, applyOps, applyOp]

/-! ## Concrete example data (used by witnesses) -/

/-- A renderer with no metadata entries (canvas 100px wide, health bars on). -/
def exRenderer : Renderer := ⟨100, fun _ => none, true⟩

/-- One archon at the origin, health 1, radius 1. -/
def exBodiesArrays : BodiesArrays :=
  ⟨fun _ => ARCHON, fun _ => 0, fun _ => 0, fun _ => 0, fun _ => 1, fun _ => 1⟩

/-- One bullet at (1, 0) with velocity (2, 0), spawned at time 0. -/
def exBullets : Bullets :=
  ⟨1, ⟨fun _ => 1, fun _ => 0, fun _ => 2, fun _ => 0, fun _ => 0⟩⟩

/-- A world at turn 3 with the one example body and the one example bullet. -/
def exWorld : GameWorld := ⟨⟨1, exBodiesArrays⟩, exBullets, ⟨0, 0⟩, ⟨10, 10⟩, 3⟩

/-- A next step in which the example body has moved to (10, 0). -/
def exNext : NextStep :=
  ⟨⟨1, ⟨fun _ => ARCHON, fun _ => 0, fun _ => 10, fun _ => 0, fun _ => 1, fun _ => 1⟩⟩⟩

/-! ## Claim theorems -/

/-- C1: for every world snapshot, next-step snapshot and renderer state,
rendering bodies through the interpolated path at interpolation factor 0
issues exactly the same ops (sprite and health-bar draws, at the same
positions) as the non-interpolated path: interpolation is the identity at
t = 0. -/
theorem interp_at_zero_eq_direct (r : Renderer) (w : GameWorld) (n : NextStep) :
    renderBodiesInterpolated r w n 0 = renderBodies r w := by
  unfold renderBodiesInterpolated renderBodies
  exact rangeOps_congr (fun i _ => by simp [interpBodyOps, bodyOps])

/-- C2: in interpolated mode, body `i` is drawn centered on
`(x[i] + (nextX[i] - x[i])*t, y[i] + (nextY[i] - y[i])*t)`: the trace of
`renderBodiesInterpolated` contains the sprite draw for body `i` at that
position (the draw rectangle's corner is the center minus the radius).
The witness instantiates the t = 0.5 case of the claim: a body moving from
(0,0) to (10,0) with radius 1 is drawn centered on (5,0). -/
theorem interpolated_body_draw_position (r : Renderer) (w : GameWorld)
    (n : NextStep) (t : JSNum) (i : Nat) (hi : i < w.bodies.length) :
    CtxOp.drawImage
        (bodyImage (w.bodies.arrays.type i) (w.bodies.arrays.team i))
        ((w.bodies.arrays.x i + (n.bodies.arrays.x i - w.bodies.arrays.x i) * t)
          - w.bodies.arrays.radius i)
        ((w.bodies.arrays.y i + (n.bodies.arrays.y i - w.bodies.arrays.y i) * t)
          - w.bodies.arrays.radius i)
        (w.bodies.arrays.radius i * 2) (w.bodies.arrays.radius i * 2)
      ∈ renderBodiesInterpolated r w n t := by
  unfold renderBodiesInterpolated
  exact mem_rangeOps.mpr ⟨i, hi, by simp [interpBodyOps]⟩

/-- Witness for C2 at the concrete input of the claim: t = 0.5, body from
(0,0) to (10,0), radius 1 — the sprite draw appears at corner (4, -1) with
size 2×2, i.e. centered on (5, 0). -/
theorem interpolated_body_draw_position_witness :
    CtxOp.drawImage (Img.archon 0) 4 (-1) 2 2
      ∈ renderBodiesInterpolated exRenderer exWorld exNext (1/2) := by
  have h := interpolated_body_draw_position exRenderer exWorld exNext (1/2) 0
    (by decide)
  simp only [exWorld, exNext, exBodiesArrays] at h
  norm_num at h
  simpa [bodyImage, ARCHON, TREE_NEUTRAL, TREE_BULLET] using h

/-- C3: every projectile `i` is drawn extrapolated from its spawn time and
constant velocity: with `dt = (world.turn + t) - spawnedTime[i]`, the trace
of `renderBullets` contains the bullet draw centered on
`(x[i] + velX[i]*dt, y[i] + velY[i]*dt)` (the draw rectangle's corner is
the center minus `BULLET_SIZE_HALF`).  The witness instantiates the
concrete case of the claim: spawnedTime = 0, velocity (2,0), turn 3,
t = 0 gives the position (x0 + 6, y0). -/
theorem bullet_draw_extrapolated (w : GameWorld) (t : JSNum) (i : Nat)
    (hi : i < w.bullets.length) :
    CtxOp.drawImage
        (bulletImage (w.bullets.arrays.velX i) (w.bullets.arrays.velY i))
        (w.bullets.arrays.x i
            + w.bullets.arrays.velX i * ((w.turn + t) - w.bullets.arrays.spawnedTime i)
            - BULLET_SIZE_HALF)
        (w.bullets.arrays.y i
            + w.bullets.arrays.velY i * ((w.turn + t) - w.bullets.arrays.spawnedTime i)
            - BULLET_SIZE_HALF)
        BULLET_SIZE BULLET_SIZE
      ∈ renderBullets w t := by
  unfold renderBullets
  exact mem_rangeOps.mpr ⟨i, hi, by simp [bulletOps]⟩

/-- Witness for C3 at the concrete input of the claim: the example bullet
(x0 = 1, y0 = 0, velocity (2,0), spawnedTime 0) at turn 3 with t = 0 is
drawn centered on (1 + 6, 0), i.e. at corner (7 - 1/8, -1/8). -/
theorem bullet_draw_extrapolated_witness :
    CtxOp.drawImage Img.bulletFast (55/8) (-1/8) (1/4) (1/4)
      ∈ renderBullets exWorld 0 := by
  have h := bullet_draw_extrapolated exWorld 0 0 (by decide)
  norm_num [exWorld, exBullets, bulletImage, HIGH_SPEED_THRESH,
    BULLET_SIZE, BULLET_SIZE_HALF] at h ⊢
  exact h

/-- C4: the projectile sprite tier is selected by comparing squared speed
`velX² + velY²` (greater-or-equal) against the two epsilon-reduced
thresholds `4 - 0.00001` (high) and `2.25 - 0.00001` (medium); speed
magnitude exactly 2.0 (squared 4.0) selects the high-speed sprite and
magnitude 1.999 selects the medium-speed sprite. -/
theorem bullet_sprite_tiering :
    (∀ velX velY : JSNum, velX*velX + velY*velY ≥ HIGH_SPEED_THRESH →
        bulletImage velX velY = Img.bulletFast) ∧
    (∀ velX velY : JSNum, velX*velX + velY*velY < HIGH_SPEED_THRESH →
        velX*velX + velY*velY ≥ MED_SPEED_THRESH →
        bulletImage velX velY = Img.bulletMedium) ∧
    (∀ velX velY : JSNum, velX*velX + velY*velY < MED_SPEED_THRESH →
        bulletImage velX velY = Img.bulletSlow) ∧
    HIGH_SPEED_THRESH = 4 - 1/100000 ∧
    MED_SPEED_THRESH = 9/4 - 1/100000 ∧
    bulletImage 2 0 = Img.bulletFast ∧
    bulletImage (1999/1000) 0 = Img.bulletMedium := by
  refine ⟨?_, ?_, ?_, by norm_num [HIGH_SPEED_THRESH],
    by norm_num [MED_SPEED_THRESH], ?_, ?_⟩
  · intro vx vy h
    simp [bulletImage, h]
  · intro vx vy h1 h2
    simp [bulletImage, not_le.mpr h1, h2]
  · intro vx vy h
    have h1 : vx*vx + vy*vy < HIGH_SPEED_THRESH :=
      lt_trans h (by norm_num [MED_SPEED_THRESH, HIGH_SPEED_THRESH])
    simp [bulletImage, not_le.mpr h1, not_le.mpr h]
  · norm_num [bulletImage, HIGH_SPEED_THRESH]
  · norm_num [bulletImage, HIGH_SPEED_THRESH, MED_SPEED_THRESH]

/-- Witness for C4: a projectile with velocity (0, 1) (squared speed 1,
below the medium threshold) selects the slow sprite. -/
theorem bullet_sprite_tiering_witness : bulletImage 0 1 = Img.bulletSlow :=
  bullet_sprite_tiering.2.2.1 0 1 (by norm_num [MED_SPEED_THRESH])

/-- C5: for every position, health value and body-type code with no entry
in the metadata table, `drawHealthBar` issues no op at all (in particular
it touches neither the drawing context nor raises: the function is total
and returns the empty trace). -/
theorem drawHealthBar_missing_metadata (r : Renderer) (x y health : JSNum)
    (type : Nat) (h : r.metadata type = none) :
    drawHealthBar r x y health type = [] := by
  unfold drawHealthBar
  cases hb : r.healthBars <;> simp [hb, h]

/-- Witness for C5: the example renderer has an empty metadata table, and
`drawHealthBar` on it emits nothing. -/
theorem drawHealthBar_missing_metadata_witness :
    drawHealthBar exRenderer 0 0 1 ARCHON = [] :=
  drawHealthBar_missing_metadata exRenderer 0 0 1 ARCHON rfl

/-- A world with one body of the unrecognized type code 42 at the origin
(radius 1). -/
def exUnknownWorld : GameWorld :=
  ⟨⟨1, ⟨fun _ => 42, fun _ => 0, fun _ => 0, fun _ => 0, fun _ => 1, fun _ => 1⟩⟩,
   exBullets, ⟨0, 0⟩, ⟨10, 10⟩, 3⟩

/-- C6: a body-type code that is none of the nine recognized codes (seven
robot kinds plus two tree kinds) selects the generic unknown-placeholder
sprite, and both body-rendering paths draw that placeholder for such a
body (no error: the selection is a total function). -/
theorem unknown_type_placeholder (type team : Nat)
    (h : type ∉ [TREE_NEUTRAL, TREE_BULLET, ARCHON, GARDENER, LUMBERJACK,
      RECRUIT, SOLDIER, TANK, SCOUT]) :
    bodyImage type team = Img.unknown ∧
    (∀ (r : Renderer) (w : GameWorld) (i : Nat), i < w.bodies.length →
      w.bodies.arrays.type i = type → w.bodies.arrays.team i = team →
      CtxOp.drawImage Img.unknown
          (w.bodies.arrays.x i - w.bodies.arrays.radius i)
          (w.bodies.arrays.y i - w.bodies.arrays.radius i)
          (w.bodies.arrays.radius i * 2) (w.bodies.arrays.radius i * 2)
        ∈ renderBodies r w) ∧
    (∀ (r : Renderer) (w : GameWorld) (n : NextStep) (t : JSNum) (i : Nat),
      i < w.bodies.length →
      w.bodies.arrays.type i = type → w.bodies.arrays.team i = team →
      CtxOp.drawImage Img.unknown
          (w.bodies.arrays.x i + (n.bodies.arrays.x i - w.bodies.arrays.x i) * t
            - w.bodies.arrays.radius i)
          (w.bodies.arrays.y i + (n.bodies.arrays.y i - w.bodies.arrays.y i) * t
            - w.bodies.arrays.radius i)
          (w.bodies.arrays.radius i * 2) (w.bodies.arrays.radius i * 2)
        ∈ renderBodiesInterpolated r w n t) := by
  simp only [List.mem_cons, List.not_mem_nil, or_false, not_or] at h
  obtain ⟨h1, h2, h3, h4, h5, h6, h7, h8, h9⟩ := h
  have himg : bodyImage type team = Img.unknown := by
    simp [bodyImage, h1, h2, h3, h4, h5, h6, h7, h8, h9]
  refine ⟨himg, ?_, ?_⟩
  · intro r w i hi hty htm
    unfold renderBodies
    refine mem_rangeOps.mpr ⟨i, hi, ?_⟩
    simp [bodyOps, hty, htm, himg]
  · intro r w n t i hi hty htm
    unfold renderBodiesInterpolated
    refine mem_rangeOps.mpr ⟨i, hi, ?_⟩
    simp [interpBodyOps, hty, htm, himg]

/-- Witness for C6: type code 42 maps to the placeholder sprite, and the
body of `exUnknownWorld` is drawn with it (at corner (-1, -1), size 2×2). -/
theorem unknown_type_placeholder_witness :
    bodyImage 42 0 = Img.unknown ∧
      CtxOp.drawImage Img.unknown (-1) (-1) 2 2
        ∈ renderBodies exRenderer exUnknownWorld := by
  have h := unknown_type_placeholder 42 0 (by decide)
  refine ⟨h.1, ?_⟩
  have h2 := h.2.1 exRenderer exUnknownWorld 0 (by decide) rfl rfl
  norm_num [exUnknownWorld] at h2 ⊢
  exact h2

/-- A renderer whose metadata table maps every type code to maxHealth 10
(health bars on). -/
def exMetaRenderer : Renderer := ⟨100, fun _ => some ⟨10⟩, true⟩

/-- C10: with health bars enabled and metadata available, the green fill
rectangle has width exactly `HEALTH_BAR_WIDTH * health / maxHealth` with
no clamping, while the black outline has fixed width `HEALTH_BAR_WIDTH`;
hence (for `0 < maxHealth`) the fill width is strictly monotone in
health, exceeds the outline width when `health > maxHealth`, and is
negative when `health < 0`. -/
theorem healthBar_fill_width (r : Renderer) (x y : JSNum) (type : Nat)
    (bt : BodyTypeMeta) (hb : r.healthBars = true)
    (hm : r.metadata type = some bt) (hpos : 0 < bt.maxHealth) :
    (∀ health : JSNum,
      drawHealthBar r x y health type =
        [CtxOp.setFillStyle (Style.colorStr "green"),
         CtxOp.fillRect x y (HEALTH_BAR_WIDTH * health / bt.maxHealth)
           HEALTH_BAR_HEIGHT,
         CtxOp.setStrokeStyle (Style.colorStr "black"),
         CtxOp.setLineWidth (1/10),
         CtxOp.strokeRect x y HEALTH_BAR_WIDTH HEALTH_BAR_HEIGHT]) ∧
    (∀ h₁ h₂ : JSNum, h₁ < h₂ →
      HEALTH_BAR_WIDTH * h₁ / bt.maxHealth < HEALTH_BAR_WIDTH * h₂ / bt.maxHealth) ∧
    (∀ health : JSNum, bt.maxHealth < health →
      HEALTH_BAR_WIDTH < HEALTH_BAR_WIDTH * health / bt.maxHealth) ∧
    (∀ health : JSNum, health < 0 →
      HEALTH_BAR_WIDTH * health / bt.maxHealth < 0) := by
  have mono : ∀ h₁ h₂ : JSNum, h₁ < h₂ →
      HEALTH_BAR_WIDTH * h₁ / bt.maxHealth < HEALTH_BAR_WIDTH * h₂ / bt.maxHealth := by
    intro h₁ h₂ hlt
    have hmul : HEALTH_BAR_WIDTH * h₁ < HEALTH_BAR_WIDTH * h₂ := by
      have : (0:JSNum) < HEALTH_BAR_WIDTH := by norm_num [HEALTH_BAR_WIDTH]
      exact mul_lt_mul_of_pos_left hlt this
    have hinv : 0 < bt.maxHealth⁻¹ := inv_pos.mpr hpos
    simpa [div_eq_mul_inv] using mul_lt_mul_of_pos_right hmul hinv
  refine ⟨?_, mono, ?_, ?_⟩
  · intro health
    unfold drawHealthBar
    simp [hb, hm]
  · intro health hlt
    have := mono bt.maxHealth health hlt
    rwa [mul_div_assoc, div_self (ne_of_gt hpos), mul_one] at this
  · intro health hneg
    have := mono health 0 hneg
    simpa using this

/-- Witness for C10 at a concrete input: maxHealth 10 and health 5 give a
fill rectangle of width 1 (half the outline's fixed width 2). -/
theorem healthBar_fill_width_witness :
    drawHealthBar exMetaRenderer 0 0 5 ARCHON =
      [CtxOp.setFillStyle (Style.colorStr "green"),
       CtxOp.fillRect 0 0 1 (3/10),
       CtxOp.setStrokeStyle (Style.colorStr "black"),
       CtxOp.setLineWidth (1/10),
       CtxOp.strokeRect 0 0 2 (3/10)] := by
  have h := (healthBar_fill_width exMetaRenderer 0 0 ARCHON ⟨10⟩ rfl rfl
    (by norm_num)).1 5
  norm_num [HEALTH_BAR_WIDTH, HEALTH_BAR_HEIGHT] at h ⊢
  exact h

/-- Untagging a tagged pass gives back its op list. -/
theorem map_snd_tagPass (p : Pass) (l : List CtxOp) :
    (tagPass p l).map Prod.snd = l := by
  simp [tagPass, List.map_map]

/-- Running a single `restore` on a state with a non-empty save stack pops
the top frame. -/
theorem applyOps_restore_of_stack (s : CtxState) (f : Frame) (rest : List Frame)
    (h : s.stack = f :: rest) :
    applyOps s [CtxOp.restore] = { stack := rest, cur := f } := by
  show applyOp s CtxOp.restore = _
  simp only [applyOp]
  rw [h]

/-- C7: for every initial context state (any transform, styles and save
stack) and every argument combination, running the full op trace of one
`render` call returns the context to exactly its initial state: `render`
saves on entry and restores on exit, the background pass saves and
restores around its own scale adjustment, and no other emitted op touches
the save stack, so no transform or style mutation leaks past the call. -/
theorem render_preserves_ctx_state (s : CtxState) (r : Renderer) (w : GameWorld)
    (viewMin : Victor) (viewWidth : JSNum) (nextStep : Option NextStep)
    (lerpAmount : Option JSNum) :
    applyOps s (renderOps r w viewMin viewWidth nextStep lerpAmount) = s := by
  unfold renderOps render
  rcases lerpAmount with _ | la
  · simp only [List.map_append, map_snd_tagPass, applyOps_append]
    rw [applyOps_renderBackground]
    rw [applyOps_restore_of_stack _ s.cur s.stack]
    rw [applyOps_stack _ (renderIndicatorStrings_no_stackOp w),
        applyOps_stack _ (renderBodies_no_stackOp r w),
        applyOps_stack _ (renderBullets_no_stackOp w 0)]
    rfl
  · rcases nextStep with _ | ns
    · simp only [List.map_append, map_snd_tagPass, applyOps_append]
      rw [applyOps_renderBackground]
      rw [applyOps_restore_of_stack _ s.cur s.stack]
      rw [applyOps_stack _ (renderIndicatorStrings_no_stackOp w),
          applyOps_stack _ (renderBodies_no_stackOp r w),
          applyOps_stack _ (renderBullets_no_stackOp w 0)]
      rfl
    · simp only [List.map_append, map_snd_tagPass, applyOps_append]
      rw [applyOps_renderBackground]
      rw [applyOps_restore_of_stack _ s.cur s.stack]
      rw [applyOps_stack _ (renderIndicatorStrings_no_stackOp w),
          applyOps_stack _ (renderBodiesInterpolated_no_stackOp r w ns la),
          applyOps_stack _ (renderBullets_no_stackOp w la)]
      rfl

/-- An element of a tagged pass carries that pass as its tag. -/
theorem fst_of_mem_tagPass {x : Pass × CtxOp} {p : Pass} {l : List CtxOp}
    (h : x ∈ tagPass p l) : x.1 = p := by
  rcases List.mem_map.mp h with ⟨op, _, rfl⟩
  rfl

/-- Within one tagged pass the tag order is (reflexively) respected. -/
theorem tagPass_pairwise_le (p : Pass) (l : List CtxOp) :
    List.Pairwise (fun a b : Pass × CtxOp => passIdx a.1 ≤ passIdx b.1)
      (tagPass p l) := by
  unfold tagPass
  induction l with
  | nil => exact List.Pairwise.nil
  | cons op rest ih =>
    refine List.Pairwise.cons ?_ ih
    intro b hb
    rcases List.mem_map.mp hb with ⟨op', _, rfl⟩
    exact le_refl _

/-- A pointwise bound on two lists extends to their concatenation. -/
theorem bound_append {P : Pass × CtxOp → Prop} {l₁ l₂ : List (Pass × CtxOp)}
    (h₁ : ∀ a ∈ l₁, P a) (h₂ : ∀ a ∈ l₂, P a) : ∀ a ∈ l₁ ++ l₂, P a := by
  intro a ha
  rcases List.mem_append.mp ha with h | h
  · exact h₁ a h
  · exact h₂ a h

/-- Every element of a tagged pass has pass index at most any upper bound
of the pass's index. -/
theorem tagPass_idx_le {k : Nat} {p : Pass} (h : passIdx p ≤ k) (l : List CtxOp) :
    ∀ a ∈ tagPass p l, passIdx a.1 ≤ k := by
  intro a ha
  rw [fst_of_mem_tagPass ha]
  exact h

/-- Every element of a tagged pass has pass index at least any lower bound
of the pass's index. -/
theorem tagPass_idx_ge {k : Nat} {p : Pass} (h : k ≤ passIdx p) (l : List CtxOp) :
    ∀ a ∈ tagPass p l, k ≤ passIdx a.1 := by
  intro a ha
  rw [fst_of_mem_tagPass ha]
  exact h

/-- Concatenating two tag-ordered lists separated by a pivot index keeps
the tag order. -/
theorem pairwise_le_append {l₁ l₂ : List (Pass × CtxOp)} (k : Nat)
    (h₁ : List.Pairwise (fun a b => passIdx a.1 ≤ passIdx b.1) l₁)
    (h₂ : List.Pairwise (fun a b => passIdx a.1 ≤ passIdx b.1) l₂)
    (hb₁ : ∀ a ∈ l₁, passIdx a.1 ≤ k)
    (hb₂ : ∀ b ∈ l₂, k ≤ passIdx b.1) :
    List.Pairwise (fun a b : Pass × CtxOp => passIdx a.1 ≤ passIdx b.1)
      (l₁ ++ l₂) := by
  rw [List.pairwise_append]
  exact ⟨h₁, h₂, fun a ha b hb => le_trans (hb₁ a ha) (hb₂ b hb)⟩

/-- A six-pass concatenation in issue order is tag-ordered. -/
theorem pairwise_sixPass (lA lB lC lD lE lF : List CtxOp) :
    List.Pairwise (fun a b : Pass × CtxOp => passIdx a.1 ≤ passIdx b.1)
      (tagPass Pass.frameSetup lA ++ (tagPass Pass.background lB ++
        (tagPass Pass.bullets lC ++ (tagPass Pass.bodiesPass lD ++
          (tagPass Pass.overlay lE ++ tagPass Pass.frameTeardown lF))))) := by
  have pEF := pairwise_le_append 5 (tagPass_pairwise_le Pass.overlay lE)
    (tagPass_pairwise_le Pass.frameTeardown lF)
    (tagPass_idx_le (by decide) lE) (tagPass_idx_ge (by decide) lF)
  have pDEF := pairwise_le_append 4 (tagPass_pairwise_le Pass.bodiesPass lD) pEF
    (tagPass_idx_le (by decide) lD)
    (bound_append (tagPass_idx_ge (by decide) lE) (tagPass_idx_ge (by decide) lF))
  have pCDEF := pairwise_le_append 3 (tagPass_pairwise_le Pass.bullets lC) pDEF
    (tagPass_idx_le (by decide) lC)
    (bound_append (tagPass_idx_ge (by decide) lD)
      (bound_append (tagPass_idx_ge (by decide) lE) (tagPass_idx_ge (by decide) lF)))
  have pBCDEF := pairwise_le_append 2 (tagPass_pairwise_le Pass.background lB) pCDEF
    (tagPass_idx_le (by decide) lB)
    (bound_append (tagPass_idx_ge (by decide) lC)
      (bound_append (tagPass_idx_ge (by decide) lD)
        (bound_append (tagPass_idx_ge (by decide) lE) (tagPass_idx_ge (by decide) lF))))
  exact pairwise_le_append 1 (tagPass_pairwise_le Pass.frameSetup lA) pBCDEF
    (tagPass_idx_le (by decide) lA)
    (bound_append (tagPass_idx_ge (by decide) lB)
      (bound_append (tagPass_idx_ge (by decide) lC)
        (bound_append (tagPass_idx_ge (by decide) lD)
          (bound_append (tagPass_idx_ge (by decide) lE)
            (tagPass_idx_ge (by decide) lF)))))

/-- C8: in every `render` call, the tagged op trace is issued in the fixed
back-to-front pass order — frame setup, then background, then
projectiles, then bodies (interpolated or not), then annotation overlays,
then frame teardown: the pass indices along the trace are nondecreasing,
so an overlay op never precedes a body op, and a body op never precedes a
projectile or background op. -/
theorem render_pass_order (r : Renderer) (w : GameWorld) (viewMin : Victor)
    (viewWidth : JSNum) (nextStep : Option NextStep) (lerpAmount : Option JSNum) :
    List.Pairwise (fun a b : Pass × CtxOp => passIdx a.1 ≤ passIdx b.1)
      (render r w viewMin viewWidth nextStep lerpAmount) := by
  unfold render
  dsimp only
  split <;> · simp only [List.append_assoc]
              exact pairwise_sixPass _ _ _ _ _ _

/-- A dots collection with one indicator dot at (0, 0), RGB (255, 0, 0). -/
def exDots : IndicatorDots :=
  ⟨1, fun _ => 0, fun _ => 0, fun _ => 255, fun _ => 0, fun _ => 0⟩

/-- A lines collection with one indicator line from (0, 0) to (1, 1),
RGB (0, 255, 0). -/
def exLines : IndicatorLines :=
  ⟨1, fun _ => 0, fun _ => 0, fun _ => 1, fun _ => 1,
   fun _ => 0, fun _ => 255, fun _ => 0⟩

/-- C9 is false of the code (a code bug): the overlay loops begin a path
per dot (`arc`) and per line (`moveTo`/`lineTo`) and assign `fillStyle`
the literal single-quoted string `rgb($\x7bred\x7d, $\x7bgreen\x7d,
$\x7bblue\x7d)` — not a color derived from the RGB triple, since the
source uses a plain string literal where a template literal was intended
— and they never issue `fill` or `stroke`, so no filled circle and no
stroked segment is ever drawn.  The first conjunct evaluates the loop
body on a one-dot, one-line collection; the second shows no collection
whatsoever makes the overlay pass emit a `fill` or `stroke` op. -/
theorem indicator_overlay_never_fills :
    renderIndicatorStringsWith exDots exLines =
      [CtxOp.beginPath, CtxOp.arc 0 0 INDICATOR_DOT_SIZE 0 2 false,
       CtxOp.setFillStyle (Style.colorStr rgbLiteral),
       CtxOp.setLineWidth INDICATOR_LINE_WIDTH,
       CtxOp.beginPath, CtxOp.moveTo 0 0, CtxOp.lineTo 1 1,
       CtxOp.setFillStyle (Style.colorStr rgbLiteral)] ∧
    (∀ (dots : IndicatorDots) (lines : IndicatorLines),
      CtxOp.fill ∉ renderIndicatorStringsWith dots lines ∧
      CtxOp.stroke ∉ renderIndicatorStringsWith dots lines) := by
  constructor
  · rfl
  · intro dots lines
    constructor <;> intro hmem <;>
    · simp only [renderIndicatorStringsWith, List.mem_append, mem_rangeOps,
        List.mem_cons, List.not_mem_nil, or_false, List.mem_singleton] at hmem
      rcases hmem with (⟨i, _, h⟩ | h) | ⟨i, _, h⟩ <;> simp at h
